import Mathlib

/-!
Verification of the qwen-router relay against its specification.

The repository holds two server variants in `server.js`:
the axios proxy variant (credential file + `qwen -p "ping"` refresh +
direct HTTP relay) and the CLI-spawn variant (prompt formatting +
`qwen` subprocess whose stdout is re-wrapped into SSE chunks).
The definitions below are shallow embeddings of those functions;
file reads, network calls and timers are made explicit parameters or
transition-system steps, while the decision logic is translated
line by line.
-/

namespace QwenRouter

/-! ### Credential records (oauth_creds.json) -/

/-- A credential record as stored in the credential file.
`expiry_date` is in milliseconds; an absent field is `none`
(JavaScript truthiness also treats the value `0` as absent,
which the embeddings below reproduce). -/
structure Creds where
  access_token : String
  expiry_date : Option Int
  deriving Repr, DecidableEq

/-- Outcome of `refreshToken()` as observed by `ensureValidToken`:
either it resolves with the credentials re-read from the file after the
CLI refresh, or the promise rejects. -/
inductive RefreshOutcome
  | ok (c : Option Creds)
  | err
  deriving Repr, DecidableEq

/-- Result of `ensureValidToken`: the credentials it returns and whether
`refreshToken()` was invoked at all (a refresh network call can only be
issued inside `refreshToken`). -/
structure EnsureResult where
  creds : Option Creds
  refreshCalled : Bool
  deriving Repr, DecidableEq

/-- Default of `REFRESH_BUFFER_MS` (`parseInt(env) || 5 * 60 * 1000`). -/
def REFRESH_BUFFER_MS_default : Int := 5 * 60 * 1000

/-- The refresh condition in `ensureValidToken`:
`creds.expiry_date && Date.now() + REFRESH_BUFFER_MS > creds.expiry_date`.
A missing or zero `expiry_date` is falsy, so no refresh is attempted. -/
def needsRefresh (c : Creds) (now buffer : Int) : Bool :=
  match c.expiry_date with
  | some e => e ≠ 0 && now + buffer > e
  | none => false

/-- `ensureValidToken` (server.js, axios variant, lines 80-104):
reads the credentials (`file` is the parsed file contents, `none` when the
file is missing or unparsable); when the token is near expiry it awaits
`refreshToken()` whose outcome is `refresh`; a rejected refresh is caught
and the old credentials are kept ("mencoba menggunakan token lama"). -/
def ensureValidToken (file : Option Creds) (now buffer : Int)
    (refresh : RefreshOutcome) : EnsureResult :=
  match file with
  | none => ⟨none, false⟩
  | some c =>
    if needsRefresh c now buffer then
      match refresh with
      | .ok c2 => ⟨c2, true⟩
      | .err => ⟨some c, true⟩
    else ⟨some c, false⟩

/-! ### The chat-completions entry gate (router key check and token gate) -/

/-- `authHeader && authHeader.split(' ')[1]`: the token the router key is
compared against; `none` when the header is missing or has no second
space-separated part. -/
def bearerToken (authHeader : Option String) : Option String :=
  match authHeader with
  | none => none
  | some h => (h.splitOn " ").get? 1

/-- What the POST /v1/chat/completions handler decides before any upstream
call: reject with 401, answer 500 because no usable access token exists,
or proceed to `makeRequest` with a bearer token. -/
inductive ChatOutcome
  | unauthorized
  | noCreds
  | proceed (token : String)
  deriving Repr, DecidableEq

/-- The entry of the chat-completions handler (axios variant, lines
156-175): optional router-key check, then `ensureValidToken`; a missing
record or empty `access_token` yields the 500 response. The returned
`Bool` records whether `refreshToken()` was invoked (no refresh network
call happens otherwise, and no upstream call happens unless the outcome
is `proceed`). -/
def chatCompletions (routerKey : Option String) (authHeader : Option String)
    (file : Option Creds) (now buffer : Int) (refresh : RefreshOutcome) :
    ChatOutcome × Bool :=
  let afterAuth : ChatOutcome × Bool :=
    let r := ensureValidToken file now buffer refresh
    match r.creds with
    | some c =>
      if c.access_token ≠ "" then (.proceed c.access_token, r.refreshCalled)
      else (.noCreds, r.refreshCalled)
    | none => (.noCreds, r.refreshCalled)
  match routerKey with
  | some k => if bearerToken authHeader = some k then afterAuth else (.unauthorized, false)
  | none => afterAuth

/-! ### refreshToken concurrency model (axios variant, lines 44-75)

`refreshToken` guards the CLI refresh with a module-level `isRefreshing`
flag.  JavaScript runs the body up to `exec` without suspension, so the
check of `isRefreshing` and setting it are one atomic step.  A caller who
finds the flag set does not join the in-flight refresh: it schedules a
2-second timer and then resolves with whatever `getCredentials()` returns
at that moment, independent of the in-flight outcome.  The `exec`
callback clears the flag and resolves (fresh file read) or rejects. -/

/-- Outcome a `refreshToken` caller observes. -/
inductive Outcome
  | resolved (c : Option Creds)
  | rejected
  deriving Repr, DecidableEq

/-- Status of one `refreshToken` caller. -/
inductive CallerSt
  | idle
  | inflight
  | waiting
  | done (o : Outcome)
  deriving Repr, DecidableEq

/-- Shared state of the refresh machinery: the `isRefreshing` flag, the
credential file contents, how many refresh network calls (`exec`
invocations) have been issued, and the per-caller statuses. -/
structure RState where
  isRefreshing : Bool
  file : Option Creds
  execCalls : Nat
  callers : List CallerSt
  deriving Repr, DecidableEq

/-- Event-loop steps of `refreshToken`. -/
inductive Step : RState → RState → Prop
  /-- A caller invokes `refreshToken` while no refresh is in flight:
  the flag is set and one `exec` (network refresh call) is issued. -/
  | callFresh (s : RState) (i : Nat) (h : s.callers[i]? = some .idle)
      (hf : s.isRefreshing = false) :
      Step s { s with
               isRefreshing := true
               execCalls := s.execCalls + 1
               callers := s.callers.set i .inflight }
  /-- A caller invokes `refreshToken` while a refresh is in flight:
  no `exec` is issued, a 2-second timer is scheduled. -/
  | callBusy (s : RState) (i : Nat) (h : s.callers[i]? = some .idle)
      (ht : s.isRefreshing = true) :
      Step s { s with callers := s.callers.set i .waiting }
  /-- The 2-second timer of a waiting caller fires: it resolves with the
  current file contents, whatever the in-flight refresh is doing. -/
  | timerFire (s : RState) (i : Nat) (h : s.callers[i]? = some .waiting) :
      Step s { s with callers := s.callers.set i (.done (.resolved s.file)) }
  /-- The in-flight `exec` completes successfully: the CLI wrote a new
  credential file, the flag is cleared, the caller resolves with the
  re-read credentials. -/
  | execOk (s : RState) (i : Nat) (newFile : Option Creds)
      (h : s.callers[i]? = some .inflight) :
      Step s { s with
               isRefreshing := false
               file := newFile
               callers := s.callers.set i (.done (.resolved newFile)) }
  /-- The in-flight `exec` fails: the flag is cleared and the caller
  rejects. -/
  | execErr (s : RState) (i : Nat) (h : s.callers[i]? = some .inflight) :
      Step s { s with
               isRefreshing := false
               callers := s.callers.set i (.done .rejected) }

/-- A step taken while a refresh is in flight. -/
def StepInWindow (a b : RState) : Prop := Step a b ∧ a.isRefreshing = true

/-- Single-step form of the single-flight window invariant:
no step taken while `isRefreshing` is set issues a refresh call. -/
theorem execCalls_const_of_step_in_window {a b : RState}
    (hs : Step a b) (hw : a.isRefreshing = true) : b.execCalls = a.execCalls := by
  cases hs with
  | callFresh i h hf => rw [hf] at hw; exact absurd hw (by simp)
  | callBusy i h ht => rfl
  | timerFire i h => rfl
  | execOk i newFile h => rfl
  | execErr i h => rfl

/-! ### The relay attempt loop (axios variant, lines 208-232)

The handler makes the first `makeRequest(creds.access_token)`; on a
caught error whose response status is exactly `401` it awaits
`refreshToken()` and, when that resolves with credentials holding a
non-empty `access_token`, replays `makeRequest` once with the same
`req.body`; a failure of the replay is caught by the inner catch and the
handler falls through to `handleError(res, error)` carrying the FIRST
error.  Any other error status goes to `handleError` directly. -/

/-- An error raised by an upstream attempt: the HTTP status of
`error.response` and its body. -/
structure UpErr where
  status : Nat
  body : String
  deriving Repr, DecidableEq

/-- Result of one upstream attempt (`makeRequest`). -/
inductive UpResult
  | ok (body : String)
  | err (e : UpErr)
  deriving Repr, DecidableEq

/-- What the relay sends back for one inbound request. -/
inductive RelayOut
  | success (body : String)
  | failure (status : Nat) (body : String)
  deriving Repr, DecidableEq

/-- `newCreds && newCreds.access_token` in the retry branch. -/
def tokenUsable : Option Creds → Bool
  | some c => c.access_token ≠ ""
  | none => false

/-- The try/catch of the chat-completions handler around `makeRequest`.
`call body n` is the upstream oracle for attempt `n` with request body
`body`; `refresh` is `refreshToken()`'s outcome.  Besides the response
it returns the list of `(body, attempt)` upstream calls actually made. -/
def relay (body : String) (call : String → Nat → UpResult)
    (refresh : Except Unit (Option Creds)) :
    RelayOut × List (String × Nat) :=
  match call body 1 with
  | .ok b => (.success b, [(body, 1)])
  | .err e =>
    if e.status = 401 then
      match refresh with
      | .ok oc =>
        if tokenUsable oc then
          match call body 2 with
          | .ok b => (.success b, [(body, 1), (body, 2)])
          | .err _ => (.failure e.status e.body, [(body, 1), (body, 2)])
        else (.failure e.status e.body, [(body, 1)])
      | .error _ => (.failure e.status e.body, [(body, 1)])
    else (.failure e.status e.body, [(body, 1)])

/-! ### handleError (axios variant, lines 264-318)

For a cancelled request, `res.status(499).json(...)`; otherwise the
status is `error.response.status` (500 without a response) and the JSON
body is the upstream error body (the stream-reading branch only changes
how that body is obtained).  The function writes status and body only —
no header of the upstream response is copied onto the relay response. -/

/-- An upstream non-2xx response as seen inside the caught error:
status, response headers (Node lowercases names), and body. -/
structure UpResponse where
  status : Nat
  headers : List (String × String)
  body : String
  deriving Repr, DecidableEq

/-- The kinds of error reaching `handleError`. -/
inductive ErrKind
  | canceled
  | httpErr (resp : UpResponse)
  | networkErr (msg : String)
  deriving Repr, DecidableEq

/-- What the relay writes on the error path: status, body, and the
headers it itself sets on the response. -/
structure RelayErrResponse where
  status : Nat
  body : String
  headers : List (String × String)
  deriving Repr, DecidableEq

/-- `handleError` (axios variant): `res.status(status).json(errorData)`;
no upstream response header is forwarded. -/
def handleError : ErrKind → RelayErrResponse
  | .canceled => ⟨499, "Client Closed Request", []⟩
  | .httpErr r => ⟨r.status, r.body, []⟩
  | .networkErr m => ⟨500, m, []⟩

/-! ### Streaming (axios variant lines 235-256, CLI variant lines 496-568)

The axios variant pipes the upstream SSE stream to the caller verbatim
(`response.data.pipe(res)`).  The CLI variant parses each stdout line of
the `qwen` subprocess, extracts the assistant text, and re-wraps it in a
chunk carrying the per-request `requestId`, a creation timestamp and the
model, one `data:` frame per chunk, ending with `data: [DONE]`. -/

/-- A raw upstream SSE chunk in the axios variant, with the identifier
the upstream put in it. -/
structure RawChunk where
  id : String
  payload : String
  deriving Repr, DecidableEq

/-- `handleResponse` in streaming mode (axios variant):
`response.data.pipe(res)` — the upstream chunks pass through unchanged. -/
def handleResponseStream (chunks : List RawChunk) : List RawChunk := chunks

/-- One content part of a parsed CLI stdout event. -/
inductive CliPart
  | text (s : String)
  | nontext
  deriving Repr, DecidableEq

/-- A parsed line of CLI stdout (`JSON.parse(line)`): an assistant
message with content parts, the alternative `type:'message'` assistant
format, or anything else. -/
inductive CliEvent
  | assistant (parts : List CliPart)
  | altAssistant (content : String)
  | other
  deriving Repr, DecidableEq

/-- The `contentChunk` accumulation for one parsed line. -/
def contentOf : CliEvent → String
  | .assistant parts =>
      parts.foldl (fun acc p => match p with | .text s => acc ++ s | .nontext => acc) ""
  | .altAssistant c => c
  | .other => ""

/-- A re-wrapped streaming chunk (`chunkData` in the CLI variant). -/
structure Chunk where
  id : String
  object : String
  created : Int
  model : String
  delta : String
  deriving Repr, DecidableEq

/-- A frame written to the SSE response. -/
inductive Frame
  | data (c : Chunk)
  | done
  deriving Repr, DecidableEq

/-- Frames produced for one parsed stdout event: a single re-wrapped
chunk when the assistant content is non-empty, nothing otherwise. -/
def eventFrames (requestId : String) (created : Int) (model : String)
    (e : CliEvent) : List Frame :=
  if contentOf e ≠ "" then
    [.data ⟨requestId, "chat.completion.chunk", created, model, contentOf e⟩]
  else []

/-- Frames for a list of events; `clock i` is the per-chunk
`Math.floor(Date.now() / 1000)` at the time event `i` is processed. -/
def streamFrames (requestId : String) (model : String) (clock : Nat → Int) :
    Nat → List CliEvent → List Frame
  | _, [] => []
  | i, e :: es =>
      eventFrames requestId (clock i) model e ++
        streamFrames requestId model clock (i + 1) es

/-- The full streaming output of the CLI variant: the re-wrapped chunks
followed by the `data: [DONE]` sentinel written in the close handler. -/
def streamOutput (requestId : String) (model : String) (clock : Nat → Int)
    (events : List CliEvent) : List Frame :=
  streamFrames requestId model clock 0 events ++ [.done]

/-! ### makeRequest body (axios variant, lines 181-206)

The axios call sends `data: req.body`: the inbound JSON body is the
outbound body, verbatim.  A body is modelled as an association list of
top-level fields. -/

/-- A JSON body as a list of top-level (field, value) pairs. -/
abbrev Body := List (String × String)

/-- The `data` field of the axios request in `makeRequest`:
`data: req.body`. -/
def makeRequestBody (body : Body) : Body := body

/-- Whether a top-level field is present in a body. -/
def hasField (b : Body) (k : String) : Bool := b.any (fun p => p.1 == k)

/-! ### GET /health (axios variant, lines 115-129) -/

/-- A JSON value in the health response. -/
inductive HVal
  | s (v : String)
  | b (v : Bool)
  | i (v : Int)
  | null
  deriving Repr, DecidableEq

/-- The `/health` response object: `status`, `server_time`,
`token_exists` (`!!creds`), `token_expiry`
(`creds && creds.expiry_date ? iso(expiry) : null`) and `token_valid`
(`creds && creds.expiry_date ? Date.now() < expiry : false`);
JavaScript truthiness makes a zero `expiry_date` behave like an absent
one.  The timestamp is kept numeric. -/
def healthResponse (creds : Option Creds) (now : Int) : List (String × HVal) :=
  [("status", .s "online"),
   ("server_time", .i now),
   ("token_exists", .b creds.isSome),
   ("token_expiry",
     match creds with
     | some c =>
       match c.expiry_date with
       | some e => if e ≠ 0 then .i e else .null
       | none => .null
     | none => .null),
   ("token_valid",
     match creds with
     | some c =>
       match c.expiry_date with
       | some e => if e ≠ 0 then .b (now < e) else .b false
       | none => .b false
     | none => .b false)]

/-! ### Prompt-cache annotation -/

/-- A structured content part; `cached` is the presence of the
`cache_control` marker on the part. -/
structure TextPart where
  text : String
  cached : Bool
  deriving Repr, DecidableEq

/-- Message content: plain text or the structured content-part form. -/
inductive MsgContent
  | str (s : String)
  | parts (l : List TextPart)
  deriving Repr, DecidableEq

/-- A chat message. -/
structure ChatMsg where
  role : String
  content : MsgContent
  deriving Repr, DecidableEq

/-- A tool definition; `cached` is the presence of the `cache_control`
marker on it. -/
structure ToolDef where
  name : String
  cached : Bool
  deriving Repr, DecidableEq

/-- An inbound chat-completions request as far as the cache annotation
is concerned. -/
structure ChatReq where
  messages : List ChatMsg
  tools : List ToolDef
  stream : Bool
  deriving Repr, DecidableEq

/-- Mark the last part of a structured content list. -/
def markLastPart : List TextPart → List TextPart
  | [] => []
  | [p] => [{ p with cached := true }]
  | p :: ps => p :: markLastPart ps

/-- Modelled from the spec: marking one content location cache-eligible
"by wrapping plain text content into a structured content-part form
carrying a cache marker"; content already in part form gets the marker
on its last part. -/
def markContent : MsgContent → MsgContent
  | .str s => .parts [⟨s, true⟩]
  | .parts l => .parts (markLastPart l)

/-- Mark the first message of the given role in a list. -/
def markFirst (role : String) : List ChatMsg → List ChatMsg
  | [] => []
  | m :: ms =>
    if m.role == role then { m with content := markContent m.content } :: ms
    else m :: markFirst role ms

/-- Mark the last message of the given role in a list. -/
def markLast (role : String) (l : List ChatMsg) : List ChatMsg :=
  (markFirst role l.reverse).reverse

/-- Mark the last tool definition in a tools list. -/
def markLastTool : List ToolDef → List ToolDef
  | [] => []
  | [t] => [{ t with cached := true }]
  | t :: ts => t :: markLastTool ts

/-- Modelled from the spec: `addCacheControl` — described in the
implementation walkthrough (its section 4, "DashScope Prompt Caching")
but whose server.js is not part of the source tree.  Applied only when
the request is streaming; marks the first system message's content, the
most recent user message's content, and the last tool definition (if
any) as cache-eligible. -/
def addCacheControl (req : ChatReq) : ChatReq :=
  if req.stream then
    { req with
      messages := markLast "user" (markFirst "system" req.messages)
      tools := markLastTool req.tools }
  else req

/-- Whether a message content carries the cache marker somewhere. -/
def contentCached : MsgContent → Bool
  | .str _ => false
  | .parts l => l.any (fun p => p.cached)

/-- Whether a message carries the cache marker. -/
def cachedMsg (m : ChatMsg) : Bool := contentCached m.content

/-- Number of content locations of a request that carry the cache
marker: marked messages plus marked tool definitions. -/
def markerCount (req : ChatReq) : Nat :=
  req.messages.countP cachedMsg + req.tools.countP (fun t => t.cached)

/-- Plain-text content (the inbound form the annotation wraps). -/
def isStr : MsgContent → Bool
  | .str _ => true
  | .parts _ => false

/-! ## Theorems -/

/-- Claim C3: for every credential record with `expiry - now >
SAFETY_MARGIN` (a fixed buffer defaulting to 5 minutes),
`ensureValidToken` returns the cached record (hence its access token)
and never invokes `refreshToken`, so zero refresh network calls are
issued. -/
theorem c3_fast_path (file : Option Creds) (c : Creds) (e now buffer : Int)
    (refresh : RefreshOutcome)
    (hf : file = some c) (he : c.expiry_date = some e)
    (hfar : e - now > buffer) :
    ensureValidToken file now buffer refresh = ⟨some c, false⟩ ∧
    REFRESH_BUFFER_MS_default = 300000 := by
  subst hf
  have hnr : needsRefresh c now buffer = false := by
    have hlt : ¬ (now + buffer > e) := by omega
    simp [needsRefresh, he, hlt]
  exact ⟨by simp [ensureValidToken, hnr], rfl⟩

/-- Witness for C3 at a concrete record far from expiry. -/
theorem c3_fast_path_witness :
    ensureValidToken (some ⟨"tok", some 1000000⟩) 0 300000 RefreshOutcome.err =
      ⟨some ⟨"tok", some 1000000⟩, false⟩ ∧
    REFRESH_BUFFER_MS_default = 300000 :=
  c3_fast_path (some ⟨"tok", some 1000000⟩) ⟨"tok", some 1000000⟩ 1000000 0
    300000 RefreshOutcome.err rfl rfl (by norm_num)

/-- Claim C8 counterexample: with a near-expiry record and a failing
refresh, `ensureValidToken` returns the OLD record and the request
proceeds to the upstream with the stale token — no error is surfaced to
the HTTP caller, contradicting the claim that the failure is surfaced. -/
theorem c8_counterexample :
    ensureValidToken (some ⟨"old_token", some 1000⟩) 900 300 RefreshOutcome.err =
      ⟨some ⟨"old_token", some 1000⟩, true⟩ ∧
    chatCompletions none none (some ⟨"old_token", some 1000⟩) 900 300
      RefreshOutcome.err = (.proceed "old_token", true) := by
  exact ⟨rfl, rfl⟩

/-- Claim C8 (amended): a refresh failure does not crash the process —
the rejection is caught inside `ensureValidToken`, which logs it and
returns the old credential record, so the request silently proceeds with
the stale token whenever that record has a non-empty access token; a 500
is produced only when no usable credentials exist at all. -/
theorem c8_refresh_failure_swallowed (c : Creds) (now buffer : Int) :
    ensureValidToken (some c) now buffer RefreshOutcome.err =
      ⟨some c, needsRefresh c now buffer⟩ ∧
    (c.access_token ≠ "" →
      (chatCompletions none none (some c) now buffer RefreshOutcome.err).1 =
        .proceed c.access_token) := by
  have h1 : ensureValidToken (some c) now buffer RefreshOutcome.err =
      ⟨some c, needsRefresh c now buffer⟩ := by
    unfold ensureValidToken
    cases h : needsRefresh c now buffer <;> simp [h]
  refine ⟨h1, fun hne => ?_⟩
  simp [chatCompletions, h1, hne]

/-- Witness for C8's amended theorem. -/
theorem c8_refresh_failure_swallowed_witness :
    ensureValidToken (some ⟨"old_token", some 1000⟩) 900 300 RefreshOutcome.err =
      ⟨some ⟨"old_token", some 1000⟩, needsRefresh ⟨"old_token", some 1000⟩ 900 300⟩ ∧
    (chatCompletions none none (some ⟨"old_token", some 1000⟩) 900 300
        RefreshOutcome.err).1 = .proceed "old_token" :=
  ⟨(c8_refresh_failure_swallowed ⟨"old_token", some 1000⟩ 900 300).1,
   (c8_refresh_failure_swallowed ⟨"old_token", some 1000⟩ 900 300).2 (by decide)⟩

/-- Claim C9 counterexample: the health response has no
`token_available` field at all (the code reports `token_exists`). -/
theorem c9_counterexample :
    List.lookup "token_available" (healthResponse none 0) = none := rfl

/-- Claim C9 (amended): when the credential file is absent, `/health`
reports the absence as `token_exists:false` and `token_valid:false`
(there is no `token_available` field), and `POST /v1/chat/completions`
answers the 500 no-credentials error without invoking `refreshToken`
(and, not reaching `proceed`, without any upstream call). -/
theorem c9_missing_credentials (now buffer : Int) (auth : Option String)
    (refresh : RefreshOutcome) :
    List.lookup "token_exists" (healthResponse none now) = some (.b false) ∧
    List.lookup "token_valid" (healthResponse none now) = some (.b false) ∧
    chatCompletions none auth none now buffer refresh = (.noCreds, false) :=
  ⟨rfl, rfl, rfl⟩

/-- Claim C10: when no `ROUTER_API_KEY` is configured, the handler
performs no authorization check: two requests differing only in their
Authorization header are processed identically and neither is rejected
with 401. -/
theorem c10_open_endpoint (a1 a2 : Option String) (file : Option Creds)
    (now buffer : Int) (refresh : RefreshOutcome) :
    chatCompletions none a1 file now buffer refresh =
      chatCompletions none a2 file now buffer refresh ∧
    (chatCompletions none a1 file now buffer refresh).1 ≠ .unauthorized := by
  constructor
  · rfl
  · unfold chatCompletions
    cases h : (ensureValidToken file now buffer refresh).creds with
    | none => simp [h]
    | some c =>
      by_cases hc : c.access_token = "" <;> simp [h, hc]

/-- Claim C7 counterexample: `makeRequest` sends `data: req.body`
verbatim — no `metadata` correlation object is injected and an
unrecognized field is forwarded rather than dropped. -/
theorem c7_counterexample :
    makeRequestBody
        [("model", "qwen3-coder-plus"), ("temperature", "0.7"),
         ("unknown_field", "x")] =
      [("model", "qwen3-coder-plus"), ("temperature", "0.7"),
       ("unknown_field", "x")] ∧
    hasField
      (makeRequestBody
        [("model", "qwen3-coder-plus"), ("temperature", "0.7"),
         ("unknown_field", "x")]) "metadata" = false ∧
    hasField
      (makeRequestBody
        [("model", "qwen3-coder-plus"), ("temperature", "0.7"),
         ("unknown_field", "x")]) "unknown_field" = true := by
  exact ⟨rfl, rfl, rfl⟩

/-- Claim C7 (amended): the outbound body is the inbound body verbatim —
every field (recognized generation parameters and unrecognized fields
alike) is forwarded unchanged, and no correlation metadata is added. -/
theorem c7_body_forwarded_verbatim (b : Body) (k : String) :
    makeRequestBody b = b ∧ hasField (makeRequestBody b) k = hasField b k :=
  ⟨rfl, rfl⟩

/-- Claim C4 counterexample: an upstream 429 carrying
`Retry-After: 12` reaches `handleError`, which writes only status and
JSON body — the relay response carries no `Retry-After` header. -/
theorem c4_counterexample :
    handleError (.httpErr ⟨429, [("retry-after", "12")], "quota exceeded"⟩) =
      ⟨429, "quota exceeded", []⟩ ∧
    List.lookup "retry-after"
      (handleError
        (.httpErr ⟨429, [("retry-after", "12")], "quota exceeded"⟩)).headers =
      none :=
  ⟨rfl, rfl⟩

/-- Claim C4 (amended): on upstream 429 the relay does not retry (one
upstream attempt is made) and propagates the upstream status and body,
but no `Retry-After` response header is forwarded — `handleError` copies
no upstream header onto the relay response. -/
theorem c4_rate_limit_passthrough (up : UpResponse) (b s : String)
    (refresh : Except Unit (Option Creds)) :
    handleError (.httpErr up) = ⟨up.status, up.body, []⟩ ∧
    relay b (fun _ _ => .err ⟨429, s⟩) refresh =
      (.failure 429 s, [(b, 1)]) := by
  exact ⟨rfl, rfl⟩

/-- Claim C2 counterexample: a 403 does NOT trigger refresh-and-replay
(one attempt, error surfaced directly), and when the replay of a 401
fails again, the FIRST error body is surfaced, not the second. -/
theorem c2_counterexample :
    relay "req" (fun _ _ => .err ⟨403, "forbidden"⟩)
        (.ok (some ⟨"t", none⟩)) =
      (.failure 403 "forbidden", [("req", 1)]) ∧
    relay "req2"
        (fun _ n => .err (if n = 1 then ⟨401, "first auth failure"⟩
                          else ⟨401, "second auth failure"⟩))
        (.ok (some ⟨"t", none⟩)) =
      (.failure 401 "first auth failure", [("req2", 1), ("req2", 2)]) :=
  ⟨rfl, rfl⟩

/-- Claim C2 (amended): only a 401 (not 403) triggers refresh-and-replay;
at most two upstream attempts are ever made and both carry the same
request body; an error status other than 401 is surfaced directly with a
single attempt; and when the replay fails again the FIRST error (status
and body) is surfaced to the caller, not the second. -/
theorem c2_retry_once (body : String) (call : String → Nat → UpResult)
    (refresh : Except Unit (Option Creds)) :
    (relay body call refresh).2.length ≤ 2 ∧
    (∀ p ∈ (relay body call refresh).2, p.1 = body) ∧
    (∀ e : UpErr, call body 1 = .err e → e.status ≠ 401 →
      relay body call refresh = (.failure e.status e.body, [(body, 1)])) ∧
    (∀ e e2 : UpErr, ∀ oc : Option Creds, call body 1 = .err e →
      e.status = 401 → refresh = .ok oc → tokenUsable oc = true →
      call body 2 = .err e2 →
      relay body call refresh =
        (.failure e.status e.body, [(body, 1), (body, 2)])) := by
  refine ⟨?_, ?_, ?_, ?_⟩
  · unfold relay
    repeat' split
    all_goals simp
  · unfold relay
    repeat' split
    all_goals simp
  · intro e he hne
    simp only [relay, he]
    rw [if_neg hne]
  · intro e e2 oc he hs hr hu h2
    simp only [relay, he, hr, h2]
    rw [if_pos hs, if_pos hu]

/-- Witness for C2's amended theorem: a 401 followed by a failing replay
makes exactly two attempts and surfaces the first error. -/
theorem c2_retry_once_witness :
    (relay "b"
        (fun _ n => .err (if n = 1 then ⟨401, "A"⟩ else ⟨401, "B"⟩))
        (.ok (some ⟨"t", none⟩))).2.length ≤ 2 ∧
    relay "b" (fun _ n => .err (if n = 1 then ⟨401, "A"⟩ else ⟨401, "B"⟩))
        (.ok (some ⟨"t", none⟩)) =
      (.failure 401 "A", [("b", 1), ("b", 2)]) :=
  ⟨(c2_retry_once "b" _ _).1,
   (c2_retry_once "b"
      (fun _ n => .err (if n = 1 then ⟨401, "A"⟩ else ⟨401, "B"⟩))
      (.ok (some ⟨"t", none⟩))).2.2.2 ⟨401, "A"⟩ ⟨401, "B"⟩
      (some ⟨"t", none⟩) rfl rfl rfl rfl rfl⟩

/-- Every frame produced by `streamFrames` is a data frame whose chunk
carries the request identifier, the canonical object kind, and the model
name. -/
theorem mem_streamFrames {requestId model : String} {clock : Nat → Int} :
    ∀ {i : Nat} {events : List CliEvent} {f : Frame},
      f ∈ streamFrames requestId model clock i events →
      ∃ c : Chunk, f = .data c ∧ c.id = requestId ∧
        c.object = "chat.completion.chunk" ∧ c.model = model := by
  intro i events
  induction events generalizing i with
  | nil => intro f hf; simp [streamFrames] at hf
  | cons e es ih =>
    intro f hf
    rw [streamFrames, List.mem_append] at hf
    rcases hf with hf | hf
    · unfold eventFrames at hf
      split at hf
      · rcases List.mem_singleton.mp hf with rfl
        exact ⟨_, rfl, rfl, rfl, rfl⟩
      · simp at hf
    · exact ih hf

/-- Claim C5 counterexample: in the axios variant, streaming is
`response.data.pipe(res)` — upstream chunks pass through verbatim, so
two upstream chunks with different identifiers reach the caller with
different identifiers: no re-wrapping with one stable response id
happens. -/
theorem c5_counterexample :
    handleResponseStream [⟨"chatcmpl-a", "x"⟩, ⟨"chatcmpl-b", "y"⟩] =
      [⟨"chatcmpl-a", "x"⟩, ⟨"chatcmpl-b", "y"⟩] ∧
    ¬ (∀ c1 ∈ handleResponseStream [⟨"chatcmpl-a", "x"⟩, ⟨"chatcmpl-b", "y"⟩],
        ∀ c2 ∈ handleResponseStream [⟨"chatcmpl-a", "x"⟩, ⟨"chatcmpl-b", "y"⟩],
        c1.id = c2.id) := by
  refine ⟨rfl, fun h => ?_⟩
  have := h ⟨"chatcmpl-a", "x"⟩ (by simp [handleResponseStream])
    ⟨"chatcmpl-b", "y"⟩ (by simp [handleResponseStream])
  simp at this

/-- Claim C5 (amended): in the CLI-spawn variant every emitted data
frame is a re-wrapped chunk carrying the per-request identifier (shared
by all chunks of the response), the canonical object kind, a creation
timestamp and the model name, and the stream terminates with the
`data: [DONE]` sentinel; in the axios variant the upstream stream is
piped through verbatim with no re-wrapping. -/
theorem c5_stream_format (requestId model : String) (clock : Nat → Int)
    (events : List CliEvent) (chunks : List RawChunk) :
    (∀ f ∈ (streamOutput requestId model clock events).dropLast,
      ∃ c : Chunk, f = .data c ∧ c.id = requestId ∧
        c.object = "chat.completion.chunk" ∧ c.model = model) ∧
    (streamOutput requestId model clock events).getLast? = some .done ∧
    handleResponseStream chunks = chunks := by
  refine ⟨?_, ?_, rfl⟩
  · intro f hf
    rw [streamOutput, List.dropLast_concat] at hf
    exact mem_streamFrames hf
  · rw [streamOutput, List.getLast?_concat]

/-- Witness for C5's amended theorem on a concrete CLI event stream. -/
theorem c5_stream_format_witness :
    (∃ c : Chunk, Frame.data ⟨"rid", "chat.completion.chunk", 7, "m", "hello"⟩ =
        .data c ∧ c.id = "rid" ∧ c.object = "chat.completion.chunk" ∧
        c.model = "m") ∧
    (streamOutput "rid" "m" (fun _ => 7) [.altAssistant "hello"]).getLast? =
      some .done :=
  ⟨(c5_stream_format "rid" "m" (fun _ => 7) [.altAssistant "hello"] []).1
      (.data ⟨"rid", "chat.completion.chunk", 7, "m", "hello"⟩) (by decide),
   (c5_stream_format "rid" "m" (fun _ => 7) [.altAssistant "hello"] []).2.1⟩

/-- The credentials on disk before the refresh of the C1 trace. -/
def oldCreds : Creds := ⟨"old", some 1000⟩

/-- C1 trace, initial state: two idle callers, flag clear. -/
def c1s0 : RState := ⟨false, some oldCreds, 0, [.idle, .idle]⟩

/-- C1 trace after caller 0 invokes `refreshToken`: flag set, one exec
issued. -/
def c1s1 : RState := ⟨true, some oldCreds, 1, [.inflight, .idle]⟩

/-- C1 trace after caller 1 invokes `refreshToken` during the window:
no second exec, a 2-second timer is pending. -/
def c1s2 : RState := ⟨true, some oldCreds, 1, [.inflight, .waiting]⟩

/-- C1 trace after caller 1's timer fires: it resolves with the OLD
credentials while the refresh is still in flight. -/
def c1s3 : RState :=
  ⟨true, some oldCreds, 1, [.inflight, .done (.resolved (some oldCreds))]⟩

/-- C1 trace after the exec fails: caller 0 rejects. -/
def c1s4 : RState :=
  ⟨false, some oldCreds, 1, [.done .rejected, .done (.resolved (some oldCreds))]⟩

/-- Claim C1 counterexample: an execution in which caller 1 arrives
while caller 0's refresh is in flight, resolves with the old credentials
after its fixed 2-second wait, and the in-flight refresh then rejects —
the two callers observe different outcomes, contradicting the claim that
every caller arriving during the window observes the same outcome as the
in-flight refresh. -/
theorem c1_counterexample :
    Relation.ReflTransGen Step c1s0 c1s4 ∧
    c1s4.callers[0]? = some (.done .rejected) ∧
    c1s4.callers[1]? = some (.done (.resolved (some oldCreds))) ∧
    Outcome.rejected ≠ Outcome.resolved (some oldCreds) := by
  refine ⟨?_, rfl, rfl, by simp⟩
  have h01 : Step c1s0 c1s1 := Step.callFresh c1s0 0 rfl rfl
  have h12 : Step c1s1 c1s2 := Step.callBusy c1s1 1 rfl rfl
  have h23 : Step c1s2 c1s3 := Step.timerFire c1s2 1 rfl
  have h34 : Step c1s3 c1s4 := Step.execErr c1s3 0 rfl
  exact .head h01 (.head h12 (.head h23 (.single h34)))

/-- Claim C1 (amended): while one refresh is in flight, no second
network refresh call is issued — every sequence of steps that all start
in a state with `isRefreshing` set leaves the exec-call count unchanged
(the single-flight half of the claim holds; the shared-outcome half
fails, see the counterexample: late callers resolve after a fixed
2-second wait with whatever the credential file then holds). -/
theorem c1_no_second_refresh_in_window (a b : RState)
    (h : Relation.ReflTransGen StepInWindow a b) :
    b.execCalls = a.execCalls := by
  induction h with
  | refl => rfl
  | tail _ hbc ih =>
    rw [execCalls_const_of_step_in_window hbc.1 hbc.2, ih]

/-- Witness for C1's amended theorem on a step of the concrete trace. -/
theorem c1_no_second_refresh_in_window_witness :
    c1s3.execCalls = c1s2.execCalls :=
  c1_no_second_refresh_in_window c1s2 c1s3
    (Relation.ReflTransGen.single ⟨Step.timerFire c1s2 1 rfl, rfl⟩)

/-- Marking plain-text content yields marked content. -/
theorem contentCached_markContent {c : MsgContent} (h : isStr c = true) :
    contentCached (markContent c) = true := by
  cases c with
  | str s => simp [markContent, contentCached]
  | parts l => simp [isStr] at h

/-- Plain-text content carries no marker. -/
theorem contentCached_of_isStr {c : MsgContent} (h : isStr c = true) :
    contentCached c = false := by
  cases c with
  | str s => rfl
  | parts l => simp [isStr] at h

/-- Marking the first message of a role adds exactly one marker, when
some message of that role exists and all messages of that role are plain
and unmarked. -/
theorem countP_markFirst (role : String) (l : List ChatMsg)
    (hplain : ∀ m ∈ l, m.role = role →
      isStr m.content = true ∧ cachedMsg m = false)
    (hex : ∃ m ∈ l, m.role = role) :
    (markFirst role l).countP cachedMsg = l.countP cachedMsg + 1 := by
  induction l with
  | nil => simp at hex
  | cons m ms ih =>
    by_cases hrole : m.role = role
    · have hm := hplain m (by simp) hrole
      rw [markFirst, if_pos (by simp [hrole])]
      rw [List.countP_cons, List.countP_cons]
      have hmk : cachedMsg { m with content := markContent m.content } = true := by
        simp [cachedMsg, contentCached_markContent hm.1]
      rw [hmk, hm.2]
      simp
    · rw [markFirst, if_neg (by simp [hrole])]
      rw [List.countP_cons, List.countP_cons]
      rcases hex with ⟨m0, hm0, hrole0⟩
      rcases List.mem_cons.mp hm0 with rfl | hm0ms
      · exact absurd hrole0 hrole
      · rw [ih (fun x hx hr => hplain x (List.mem_cons_of_mem _ hx) hr)
          ⟨m0, hm0ms, hrole0⟩]
        omega

/-- Membership after `markFirst`: an element is an original one or the
marked message of the given role. -/
theorem mem_markFirst {role : String} {l : List ChatMsg} {m' : ChatMsg}
    (h : m' ∈ markFirst role l) :
    m' ∈ l ∨ ∃ m ∈ l, m.role = role ∧
      m' = { m with content := markContent m.content } := by
  induction l with
  | nil => simp [markFirst] at h
  | cons m ms ih =>
    by_cases hrole : m.role = role
    · rw [markFirst, if_pos (by simp [hrole])] at h
      rcases List.mem_cons.mp h with rfl | hms
      · exact Or.inr ⟨m, by simp, hrole, rfl⟩
      · exact Or.inl (List.mem_cons_of_mem _ hms)
    · rw [markFirst, if_neg (by simp [hrole])] at h
      rcases List.mem_cons.mp h with rfl | hms
      · exact Or.inl (by simp)
      · rcases ih hms with hin | ⟨m0, hm0, hr0, heq⟩
        · exact Or.inl (List.mem_cons_of_mem _ hin)
        · exact Or.inr ⟨m0, List.mem_cons_of_mem _ hm0, hr0, heq⟩

/-- `markFirst` preserves the roles of the messages. -/
theorem markFirst_map_role (role : String) (l : List ChatMsg) :
    (markFirst role l).map (fun m => m.role) = l.map (fun m => m.role) := by
  induction l with
  | nil => rfl
  | cons m ms ih =>
    by_cases hrole : m.role = role
    · rw [markFirst, if_pos (by simp [hrole])]
      simp
    · rw [markFirst, if_neg (by simp [hrole])]
      simp [ih]

/-- Marking the last tool of a non-empty unmarked tools list leaves
exactly one marked tool. -/
theorem countP_markLastTool (ts : List ToolDef) (hne : ts ≠ [])
    (hclean : ∀ t ∈ ts, t.cached = false) :
    (markLastTool ts).countP (fun t => t.cached) = 1 := by
  induction ts with
  | nil => exact absurd rfl hne
  | cons t ts2 ih =>
    cases ts2 with
    | nil => simp [markLastTool]
    | cons t2 ts3 =>
      have heq : markLastTool (t :: t2 :: ts3) = t :: markLastTool (t2 :: ts3) := rfl
      rw [heq, List.countP_cons]
      rw [ih (by simp) (fun x hx => hclean x (List.mem_cons_of_mem _ hx))]
      simp [hclean t (by simp)]

/-- Claim C6: the cache annotation is applied only when the request is
streaming — a non-streaming request passes through unchanged — and for a
streaming plain-text request containing a system message, a user message
and at least one tool definition, exactly three content locations carry
the cache marker afterwards (the first system message, the most recent
user message, and the last tool). -/
theorem c6_cache_marking :
    (∀ req : ChatReq, req.stream = false → addCacheControl req = req) ∧
    (∀ req : ChatReq, req.stream = true →
      (∀ m ∈ req.messages, isStr m.content = true) →
      (∃ m ∈ req.messages, m.role = "system") →
      (∃ m ∈ req.messages, m.role = "user") →
      req.tools ≠ [] →
      (∀ t ∈ req.tools, t.cached = false) →
      markerCount (addCacheControl req) = 3) := by
  constructor
  · intro req hs
    simp [addCacheControl, hs]
  · intro req hs hplain hsys huser htne htclean
    have hform : addCacheControl req =
        { req with
          messages := markLast "user" (markFirst "system" req.messages)
          tools := markLastTool req.tools } := by
      simp [addCacheControl, hs]
    rw [hform]
    unfold markerCount
    have hclean0 : req.messages.countP cachedMsg = 0 :=
      List.countP_eq_zero.mpr fun m hm => by
        simp [cachedMsg, contentCached_of_isStr (hplain m hm)]
    have h1 : (markFirst "system" req.messages).countP cachedMsg =
        req.messages.countP cachedMsg + 1 :=
      countP_markFirst "system" req.messages
        (fun m hm _ => ⟨hplain m hm, by
          simp [cachedMsg, contentCached_of_isStr (hplain m hm)]⟩)
        hsys
    set l1 := markFirst "system" req.messages with hl1
    have hplain1 : ∀ m ∈ l1.reverse, m.role = "user" →
        isStr m.content = true ∧ cachedMsg m = false := by
      intro m hm hrole
      have hm1 : m ∈ l1 := List.mem_reverse.mp hm
      rcases mem_markFirst hm1 with hin | ⟨m0, _, hr0, heq⟩
      · exact ⟨hplain m hin, by
          simp [cachedMsg, contentCached_of_isStr (hplain m hin)]⟩
      · rw [heq] at hrole
        simp at hrole
        rw [hr0] at hrole
        simp at hrole
    have huser1 : ∃ m ∈ l1.reverse, m.role = "user" := by
      rcases huser with ⟨m, hm, hrole⟩
      have hmem : "user" ∈ l1.map (fun m => m.role) := by
        rw [hl1, markFirst_map_role]
        exact List.mem_map.mpr ⟨m, hm, hrole⟩
      rcases List.mem_map.mp hmem with ⟨m', hm', hrole'⟩
      exact ⟨m', List.mem_reverse.mpr hm', hrole'⟩
    have h2 : (markLast "user" l1).countP cachedMsg =
        l1.countP cachedMsg + 1 := by
      unfold markLast
      rw [List.countP_reverse]
      rw [countP_markFirst "user" l1.reverse hplain1 huser1]
      rw [List.countP_reverse]
    have h3 : (markLastTool req.tools).countP (fun t => t.cached) = 1 :=
      countP_markLastTool req.tools htne htclean
    rw [h2, h1, hclean0, h3]

/-- Witness for C6 on the spec's scenario: a system message, prior
turns, and two tool definitions — three marker locations when streaming,
untouched when not. -/
theorem c6_cache_marking_witness :
    addCacheControl ⟨[⟨"user", .str "hi"⟩], [⟨"t1", false⟩], false⟩ =
      ⟨[⟨"user", .str "hi"⟩], [⟨"t1", false⟩], false⟩ ∧
    markerCount (addCacheControl
      ⟨[⟨"system", .str "s"⟩, ⟨"user", .str "u1"⟩, ⟨"assistant", .str "a1"⟩,
        ⟨"user", .str "u2"⟩], [⟨"t1", false⟩, ⟨"t2", false⟩], true⟩) = 3 :=
  ⟨c6_cache_marking.1 _ rfl,
   c6_cache_marking.2 _ rfl (by decide) (by decide) (by decide)
     (by decide) (by decide)⟩

end QwenRouter
